import Mathlib

/-!
Shallow embedding of the streaming audio delivery engine of the
foo_out_avfoundation component (engine.mm, class AVFEngineImpl) and of the
NEON sample converter (utils::neon_convert), with proofs of the testable
properties stated in the design document.

Modelling conventions:
* CMTime values are embedded as rational numbers of seconds;
  CMTimeMake(frameCount, sampleRate) becomes frameCount / sampleRate and
  kCMTimeInvalid (used only for lastBufferPresentationTime) becomes none.
* The @available(macOS 11.0, *) guards are taken to succeed, so renderer and
  synchronizer exist; their observable effects (rate, volume, the buffers
  handed over by enqueueSampleBuffer, the flush that discards them) are kept
  as explicit fields of the engine state.
* Audio samples are carried as a list of rationals; the engine only copies
  them, so the carrier type is irrelevant to every property proved here.
* Memory allocation, CMBlockBufferCreateWithMemoryBlock and
  CMSampleBufferCreateReady are modelled as succeeding; AVAudioFormat
  construction (an external API) is modelled as succeeding exactly when the
  requested sample rate and channel count are positive.
* Log output is kept as a list of message tags so that claims about what is
  and is not logged can be stated.
* Each Objective-C method becomes one atomic transition on the state, which
  matches the mutex discipline of the source: the timestampMutex block and
  the sampleQueueMutex blocks each execute without interleaving.
-/

/-- Tags for the console messages emitted through logMessage. -/
inductive LogMsg where
  | queueSizeSet
  | invalidQueueSize
  | formatCreateFailed
  | engineEnabled
  | engineDisabled
  | pausedPlayback
  | resumedPlayback
  | invalidAudioData
  deriving DecidableEq, Repr

/-- The part of an AVAudioFormat that the engine inspects: the fast-path
comparison in setupAudioFormat reads only sampleRate and channelCount.
Formats are replaced, never mutated (currentFormat = audioFormat). -/
structure AVAudioFormat where
  sampleRate : Nat
  channelCount : Nat
  deriving DecidableEq, Repr

/-- Objective-C messaging a nil object returns 0, so
currentFormat.sampleRate is 0 while no format has been set up yet. -/
def objcSampleRate : Option AVAudioFormat → Nat
  | none => 0
  | some f => f.sampleRate

/-- Objective-C messaging a nil object returns 0, so
currentFormat.channelCount is 0 while no format has been set up yet. -/
def objcChannelCount : Option AVAudioFormat → Nat
  | none => 0
  | some f => f.channelCount

/-- A queued playback unit: the CMSampleBuffer built by feedAudioData.
presentationTime records the currentPresentationTime computed under the
timestampMutex when the buffer was built (the CMSampleTimingInfo itself
carries the duration and an invalid presentation timestamp, letting the
sink derive timing; the computed value is what the timeline tracks). -/
structure CMSampleBuffer where
  samples : List ℚ
  frameCount : Nat
  duration : ℚ
  presentationTime : ℚ
  deriving DecidableEq, Repr

/-- The mutable state of one AVFEngineImpl instance. -/
structure AVFEngineImpl where
  isEnabled : Bool
  isPaused : Bool
  currentFormat : Option AVAudioFormat
  nextPresentationTime : ℚ
  lastBufferPresentationTime : Option ℚ
  sampleQueue : List CMSampleBuffer
  maxQueueSize : Nat
  synchronizerRate : ℚ
  rendererVolume : ℚ
  requestingMediaData : Bool
  rendererEnqueued : List CMSampleBuffer
  formatBuildCount : Nat
  log : List LogMsg
  deriving DecidableEq, Repr

namespace AVFEngineImpl

/-- The init method: timestamps zeroed, queue empty, maxQueueSize 8,
engine disabled and not paused, no log callback output yet.
formatBuildCount is ghost instrumentation counting how many times the
slow path of setupAudioFormat constructed a new AVAudioFormat. -/
def init : AVFEngineImpl :=
  { isEnabled := false
    isPaused := false
    currentFormat := none
    nextPresentationTime := 0
    lastBufferPresentationTime := none
    sampleQueue := []
    maxQueueSize := 8
    synchronizerRate := 0
    rendererVolume := 1
    requestingMediaData := false
    rendererEnqueued := []
    formatBuildCount := 0
    log := [] }

/-- setQueueSize: sizes in 1..10 are accepted, anything else logs a warning
and keeps the current value. -/
def setQueueSize (s : AVFEngineImpl) (size : Nat) : AVFEngineImpl :=
  if 0 < size ∧ size ≤ 10 then
    { s with maxQueueSize := size, log := LogMsg.queueSizeSet :: s.log }
  else
    { s with log := LogMsg.invalidQueueSize :: s.log }

/-- setupAudioFormat: fast path returns true immediately when the requested
(sampleRate, channelCount) equal those of currentFormat (0 for nil); the
slow path constructs a new AVAudioFormat (an interleaved float32 common
format for 1 or 2 channels, a packed float ASBD format otherwise — both
paths yield a format carrying the requested rate and channel count),
commits it to currentFormat and returns true, or logs and returns false
when construction fails.  Construction of the external AVAudioFormat is
modelled as succeeding exactly when sampleRate and channels are positive. -/
def setupAudioFormat (s : AVFEngineImpl) (sampleRate channels : Nat) :
    Bool × AVFEngineImpl :=
  if sampleRate = objcSampleRate s.currentFormat ∧
      channels = objcChannelCount s.currentFormat then
    (true, s)
  else if 0 < sampleRate ∧ 0 < channels then
    (true,
     { s with currentFormat := some ⟨sampleRate, channels⟩,
              formatBuildCount := s.formatBuildCount + 1 })
  else
    (false, { s with log := LogMsg.formatCreateFailed :: s.log })

/-- enable: no-op returning true when already enabled; otherwise sets the
synchronizer rate to 1 and the renderer volume to 1, resets the timestamp
tracking, clears the sample queue (releasing stale buffers), registers the
render callback (requestMediaDataWhenReadyOnQueue) and transitions to
enabled, not paused. -/
def enable (s : AVFEngineImpl) : Bool × AVFEngineImpl :=
  if s.isEnabled then
    (true, s)
  else
    (true,
     { s with synchronizerRate := 1
              rendererVolume := 1
              nextPresentationTime := 0
              lastBufferPresentationTime := none
              sampleQueue := []
              requestingMediaData := true
              isPaused := false
              isEnabled := true
              log := LogMsg.engineEnabled :: s.log })

/-- disable: no-op when not enabled; otherwise stops requesting media data,
clears the sample queue, zeroes the synchronizer rate, flushes the renderer
(discarding the buffers previously handed to it) and transitions to
disabled, not paused. -/
def disable (s : AVFEngineImpl) : AVFEngineImpl :=
  if ¬s.isEnabled then s
  else
    { s with requestingMediaData := false
             sampleQueue := []
             synchronizerRate := 0
             rendererEnqueued := []
             isEnabled := false
             isPaused := false
             log := LogMsg.engineDisabled :: s.log }

/-- pause: no-op when not enabled; otherwise marks paused and stops the
synchronizer (rate 0) while leaving every queued buffer in place. -/
def pause (s : AVFEngineImpl) : AVFEngineImpl :=
  if ¬s.isEnabled then s
  else
    { s with isPaused := true
             synchronizerRate := 0
             log := LogMsg.pausedPlayback :: s.log }

/-- resume: no-op unless enabled and paused; otherwise restarts the
synchronizer (rate 1) and clears the paused flag. -/
def resume (s : AVFEngineImpl) : AVFEngineImpl :=
  if ¬s.isEnabled ∨ ¬s.isPaused then s
  else
    { s with synchronizerRate := 1
             isPaused := false
             log := LogMsg.resumedPlayback :: s.log }

/-- renderFromQueue: the consumer callback.  Returns immediately when the
engine is disabled or paused or the queue is empty; otherwise pops the
oldest buffer from the queue and hands it to the renderer
(enqueueSampleBuffer). -/
def renderFromQueue (s : AVFEngineImpl) : AVFEngineImpl :=
  if ¬s.isEnabled ∨ s.isPaused then s
  else
    match s.sampleQueue with
    | [] => s
    | buf :: rest =>
      { s with sampleQueue := rest
               rendererEnqueued := s.rendererEnqueued ++ [buf] }

/-- feedAudioData: returns the number of frames accepted (frameCount or 0).
Gate order follows the source: state gate (disabled or paused: silent 0),
input validation (empty data, zero frames or zero channels: logged 0),
format negotiation, queue-full backpressure check, then — modelling the
allocation, block-buffer and sample-buffer creation as succeeding — the
atomic timestamp read/advance/record under the timestampMutex and the push
of the built buffer onto the back of the sample queue. -/
def feedAudioData (s : AVFEngineImpl) (audioData : List ℚ)
    (sampleRate channels frameCount : Nat) : Nat × AVFEngineImpl :=
  if ¬s.isEnabled ∨ s.isPaused then (0, s)
  else if audioData.length = 0 ∨ frameCount = 0 ∨ channels = 0 then
    (0, { s with log := LogMsg.invalidAudioData :: s.log })
  else
    match setupAudioFormat s sampleRate channels with
    | (false, s₁) => (0, s₁)
    | (true, s₁) =>
      if s₁.maxQueueSize ≤ s₁.sampleQueue.length then (0, s₁)
      else
        let frameDuration : ℚ := (frameCount : ℚ) / (sampleRate : ℚ)
        let currentPresentationTime : ℚ := s₁.nextPresentationTime
        let buf : CMSampleBuffer :=
          { samples := audioData
            frameCount := frameCount
            duration := frameDuration
            presentationTime := currentPresentationTime }
        (frameCount,
         { s₁ with
             nextPresentationTime := s₁.nextPresentationTime + frameDuration
             lastBufferPresentationTime := some currentPresentationTime
             sampleQueue := s₁.sampleQueue ++ [buf] })

/-- flush: no-op when not enabled; otherwise resets the timestamp tracking
under the timestampMutex and flushes the renderer (discarding the buffers
already handed to it).  Note that, unlike enable and disable, it does not
touch the sample queue. -/
def flush (s : AVFEngineImpl) : AVFEngineImpl :=
  if ¬s.isEnabled then s
  else
    { s with nextPresentationTime := 0
             lastBufferPresentationTime := none
             rendererEnqueued := [] }

/-- pendingBufferCount: the current length of the sample queue. -/
def pendingBufferCount (s : AVFEngineImpl) : Nat :=
  s.sampleQueue.length

/-- isReadyForMoreMediaData: enabled, not paused, and queue not full. -/
def isReadyForMoreMediaData (s : AVFEngineImpl) : Bool :=
  s.isEnabled && !s.isPaused && decide (s.sampleQueue.length < s.maxQueueSize)

/-- getCurrentLatency: 0.01 when disabled or no format; otherwise the queue
depth times the assumed 15 ms per buffer plus a 10 ms constant. -/
def getCurrentLatency (s : AVFEngineImpl) : ℚ :=
  if ¬s.isEnabled ∨ s.currentFormat = none then 1 / 100
  else (s.sampleQueue.length : ℚ) * (3 / 200) + 1 / 100

end AVFEngineImpl

/-- One call into the engine, for reasoning about arbitrary operation
sequences.  Return values are discarded; only the state transition is
kept. -/
inductive Op where
  | feed (audioData : List ℚ) (sampleRate channels frameCount : Nat)
  | render
  | setQueueSize (n : Nat)
  | enable
  | disable
  | pause
  | resume
  | flush
  deriving DecidableEq, Repr

/-- The state transition performed by one operation. -/
def Op.step (op : Op) (s : AVFEngineImpl) : AVFEngineImpl :=
  match op with
  | Op.feed d sr ch fc => (s.feedAudioData d sr ch fc).2
  | Op.render => s.renderFromQueue
  | Op.setQueueSize n => s.setQueueSize n
  | Op.enable => (s.enable).2
  | Op.disable => s.disable
  | Op.pause => s.pause
  | Op.resume => s.resume
  | Op.flush => s.flush

/-- Run a sequence of operations from a starting state. -/
def runOps (s : AVFEngineImpl) : List Op → AVFEngineImpl
  | [] => s
  | op :: rest => runOps (op.step s) rest

/-- Feed the same unit n times in a row, collecting the returned frame
counts in call order. -/
def feedN (s : AVFEngineImpl) (audioData : List ℚ)
    (sampleRate channels frameCount : Nat) : Nat → List Nat × AVFEngineImpl
  | 0 => ([], s)
  | n + 1 =>
    let r := s.feedAudioData audioData sampleRate channels frameCount
    let rest := feedN r.2 audioData sampleRate channels frameCount n
    (r.1 :: rest.1, rest.2)

namespace utils

/-- vcvt_f32_f64: narrows both 64-bit lanes of a 128-bit vector.  The
narrowing conversion itself is kept abstract (cvt); the NEON instruction
and the scalar (float) cast perform the same round-to-nearest narrowing,
so both paths of the source use the same cvt here. -/
def vcvt_f32_f64 (cvt : α → β) (d : α × α) : β × β :=
  (cvt d.1, cvt d.2)

/-- vcombine_f32: concatenates two 2-lane halves into the 4 lanes stored by
vst1q_f32, in order. -/
def vcombine_f32 (lo hi : β × β) : List β :=
  [lo.1, lo.2, hi.1, hi.2]

/-- utils::neon_convert: the main loop consumes 16 input elements per
iteration — eight vld1q_f64 pair loads d1..d8, lanewise narrowing, and four
4-lane stores at dst, dst+4, dst+8, dst+12 — and runs count / 16 times; the
scalar tail converts the remaining count % 16 elements one by one.  The
input array of length count is embedded as a list, the output array as the
returned list. -/
def neon_convert (cvt : α → β) : List α → List β
  | x0 :: x1 :: x2 :: x3 :: x4 :: x5 :: x6 :: x7 ::
      x8 :: x9 :: x10 :: x11 :: x12 :: x13 :: x14 :: x15 :: src =>
    let d1 : α × α := (x0, x1)
    let d2 : α × α := (x2, x3)
    let d3 : α × α := (x4, x5)
    let d4 : α × α := (x6, x7)
    let d5 : α × α := (x8, x9)
    let d6 : α × α := (x10, x11)
    let d7 : α × α := (x12, x13)
    let d8 : α × α := (x14, x15)
    vcombine_f32 (vcvt_f32_f64 cvt d1) (vcvt_f32_f64 cvt d2) ++
      vcombine_f32 (vcvt_f32_f64 cvt d3) (vcvt_f32_f64 cvt d4) ++
      vcombine_f32 (vcvt_f32_f64 cvt d5) (vcvt_f32_f64 cvt d6) ++
      vcombine_f32 (vcvt_f32_f64 cvt d7) (vcvt_f32_f64 cvt d8) ++
      neon_convert cvt src
  | src => src.map cvt

end utils

/-- A freshly enabled engine, used as concrete input for evaluations. -/
def demoEnabled : AVFEngineImpl := (AVFEngineImpl.init.enable).2

/-- An enabled engine whose queue capacity was set to 3 before enabling,
as the plugin glue does (setQueueSize(3) then enable()). -/
def demoCap3 : AVFEngineImpl :=
  (((AVFEngineImpl.init).setQueueSize 3).enable).2

/-- An enabled engine holding one accepted 100-frame unit at 48000 Hz. -/
def demoFed : AVFEngineImpl :=
  (demoEnabled.feedAudioData [0] 48000 2 100).2

/-- The operation sequence that first fills four queue slots and then
shrinks the capacity to 3. -/
def shrinkOps : List Op :=
  [Op.enable,
   Op.feed [0] 48000 2 100, Op.feed [0] 48000 2 100,
   Op.feed [0] 48000 2 100, Op.feed [0] 48000 2 100,
   Op.setQueueSize 3]

section Helpers

open AVFEngineImpl

/-- setupAudioFormat only ever touches currentFormat, formatBuildCount and
the log: every other field of the engine state is preserved by it. -/
lemma setupAudioFormat_preserves (s : AVFEngineImpl) (sr ch : Nat) :
    ((s.setupAudioFormat sr ch).2).isEnabled = s.isEnabled ∧
    ((s.setupAudioFormat sr ch).2).isPaused = s.isPaused ∧
    ((s.setupAudioFormat sr ch).2).sampleQueue = s.sampleQueue ∧
    ((s.setupAudioFormat sr ch).2).maxQueueSize = s.maxQueueSize ∧
    ((s.setupAudioFormat sr ch).2).nextPresentationTime = s.nextPresentationTime ∧
    ((s.setupAudioFormat sr ch).2).lastBufferPresentationTime
      = s.lastBufferPresentationTime ∧
    ((s.setupAudioFormat sr ch).2).synchronizerRate = s.synchronizerRate ∧
    ((s.setupAudioFormat sr ch).2).rendererVolume = s.rendererVolume ∧
    ((s.setupAudioFormat sr ch).2).requestingMediaData = s.requestingMediaData ∧
    ((s.setupAudioFormat sr ch).2).rendererEnqueued = s.rendererEnqueued := by
  unfold AVFEngineImpl.setupAudioFormat
  split
  · simp
  · split <;> simp

/-- With a positive sample rate and channel count, setupAudioFormat always
returns true: either the fast path matches or the slow path constructs the
format. -/
lemma setupAudioFormat_pos_true (s : AVFEngineImpl) (sr ch : Nat)
    (hsr : 0 < sr) (hch : 0 < ch) : (s.setupAudioFormat sr ch).1 = true := by
  unfold AVFEngineImpl.setupAudioFormat
  split
  · rfl
  · split
    · rfl
    · next h => exact absurd ⟨hsr, hch⟩ h

end Helpers

/-- Forward characterisation of an accepted feed: on an enabled, unpaused
engine, with valid input, positive sample rate and a non-full queue, the
call returns frameCount and performs exactly the atomic timestamp update
and the enqueue of the built buffer. -/
lemma feedAudioData_accepted (s : AVFEngineImpl) (d : List ℚ)
    (sr ch fc : Nat) (hE : s.isEnabled = true) (hP : s.isPaused = false)
    (hd : d ≠ []) (hfc : fc ≠ 0) (hch : ch ≠ 0) (hsr : 0 < sr)
    (hq : s.sampleQueue.length < s.maxQueueSize) :
    (s.feedAudioData d sr ch fc).1 = fc ∧
    (s.feedAudioData d sr ch fc).2.sampleQueue =
      s.sampleQueue ++ [⟨d, fc, (fc : ℚ) / (sr : ℚ), s.nextPresentationTime⟩] ∧
    (s.feedAudioData d sr ch fc).2.nextPresentationTime =
      s.nextPresentationTime + (fc : ℚ) / (sr : ℚ) ∧
    (s.feedAudioData d sr ch fc).2.lastBufferPresentationTime =
      some s.nextPresentationTime ∧
    (s.feedAudioData d sr ch fc).2.isEnabled = true ∧
    (s.feedAudioData d sr ch fc).2.isPaused = false ∧
    (s.feedAudioData d sr ch fc).2.maxQueueSize = s.maxQueueSize := by
  obtain ⟨pE, pP, pQ, pM, pN, pL, -, -, -, -⟩ := setupAudioFormat_preserves s sr ch
  have hfst := setupAudioFormat_pos_true s sr ch hsr (Nat.pos_of_ne_zero hch)
  rcases hset : s.setupAudioFormat sr ch with ⟨b, s₁⟩
  rw [hset] at hfst pE pP pQ pM pN pL
  subst hfst
  dsimp only at pE pP pQ pM pN pL
  have hnotfull : ¬(s.maxQueueSize ≤ s.sampleQueue.length) := by omega
  unfold AVFEngineImpl.feedAudioData
  rw [hset]
  simp [hE, hP, List.length_eq_zero, hd, hfc, hch, hnotfull, pQ, pN, pL, pE, pP, pM]

/-- Forward characterisation of a feed rejected by backpressure: with valid
input and a full queue, the call returns 0 and does not touch the queue,
the timeline or the engine flags (only format negotiation may have updated
currentFormat). -/
lemma feedAudioData_rejected_full (s : AVFEngineImpl) (d : List ℚ)
    (sr ch fc : Nat) (hE : s.isEnabled = true) (hP : s.isPaused = false)
    (hd : d ≠ []) (hfc : fc ≠ 0) (hch : ch ≠ 0) (hsr : 0 < sr)
    (hq : s.maxQueueSize ≤ s.sampleQueue.length) :
    (s.feedAudioData d sr ch fc).1 = 0 ∧
    (s.feedAudioData d sr ch fc).2.sampleQueue = s.sampleQueue ∧
    (s.feedAudioData d sr ch fc).2.nextPresentationTime = s.nextPresentationTime ∧
    (s.feedAudioData d sr ch fc).2.lastBufferPresentationTime =
      s.lastBufferPresentationTime ∧
    (s.feedAudioData d sr ch fc).2.isEnabled = true ∧
    (s.feedAudioData d sr ch fc).2.isPaused = false ∧
    (s.feedAudioData d sr ch fc).2.maxQueueSize = s.maxQueueSize := by
  obtain ⟨pE, pP, pQ, pM, pN, pL, -, -, -, -⟩ := setupAudioFormat_preserves s sr ch
  have hfst := setupAudioFormat_pos_true s sr ch hsr (Nat.pos_of_ne_zero hch)
  rcases hset : s.setupAudioFormat sr ch with ⟨b, s₁⟩
  rw [hset] at hfst pE pP pQ pM pN pL
  subst hfst
  dsimp only at pE pP pQ pM pN pL
  have hfull : s.maxQueueSize ≤ s.sampleQueue.length := hq
  unfold AVFEngineImpl.feedAudioData
  rw [hset]
  simp [hE, hP, List.length_eq_zero, hd, hfc, hch, hfull, pQ, pN, pL, pE, pP, pM]

/-- Inversion of a successful feed: a nonzero return can only come from the
accepting branch, so the engine was enabled and unpaused, the queue had
space, and the call performed exactly the timestamp update and the enqueue
of the built buffer. -/
lemma feedAudioData_succ_inv (s : AVFEngineImpl) (d : List ℚ)
    (sr ch fc : Nat) (h : (s.feedAudioData d sr ch fc).1 ≠ 0) :
    s.isEnabled = true ∧ s.isPaused = false ∧
    s.sampleQueue.length < s.maxQueueSize ∧
    (s.feedAudioData d sr ch fc).1 = fc ∧
    (s.feedAudioData d sr ch fc).2.sampleQueue =
      s.sampleQueue ++ [⟨d, fc, (fc : ℚ) / (sr : ℚ), s.nextPresentationTime⟩] ∧
    (s.feedAudioData d sr ch fc).2.nextPresentationTime =
      s.nextPresentationTime + (fc : ℚ) / (sr : ℚ) ∧
    (s.feedAudioData d sr ch fc).2.lastBufferPresentationTime =
      some s.nextPresentationTime ∧
    (s.feedAudioData d sr ch fc).2.isEnabled = true ∧
    (s.feedAudioData d sr ch fc).2.isPaused = false ∧
    (s.feedAudioData d sr ch fc).2.maxQueueSize = s.maxQueueSize := by
  by_cases hg : ¬s.isEnabled ∨ s.isPaused
  · exact absurd (by unfold AVFEngineImpl.feedAudioData; rw [if_pos hg]) h
  · have hE : s.isEnabled = true := by
      rcases not_or.mp hg with ⟨h1, -⟩
      simpa using h1
    have hP : s.isPaused = false := by
      rcases not_or.mp hg with ⟨-, h2⟩
      simpa using h2
    by_cases hv : d.length = 0 ∨ fc = 0 ∨ ch = 0
    · exact absurd
        (by unfold AVFEngineImpl.feedAudioData; rw [if_neg hg, if_pos hv]) h
    · obtain ⟨pE, pP, pQ, pM, pN, pL, -, -, -, -⟩ :=
        setupAudioFormat_preserves s sr ch
      rcases hset : s.setupAudioFormat sr ch with ⟨b, s₁⟩
      rw [hset] at pE pP pQ pM pN pL
      dsimp only at pE pP pQ pM pN pL
      cases b with
      | false =>
        exact absurd
          (by unfold AVFEngineImpl.feedAudioData
              rw [if_neg hg, if_neg hv, hset]) h
      | true =>
        by_cases hq : s₁.maxQueueSize ≤ s₁.sampleQueue.length
        · exact absurd
            (by unfold AVFEngineImpl.feedAudioData
                rw [if_neg hg, if_neg hv, hset]
                dsimp only
                rw [if_pos hq]) h
        · have hlt : s.sampleQueue.length < s.maxQueueSize := by
            rw [pM, pQ] at hq; omega
          unfold AVFEngineImpl.feedAudioData
          rw [if_neg hg, if_neg hv, hset]
          dsimp only
          rw [if_neg hq]
          simp [hE, hP, hlt, pQ, pN, pL, pE, pP, pM]

/-- Unconditionally, a feed call never changes the capacity, and either
leaves the queue exactly as it was (every rejecting branch) or — only when
the queue had strictly fewer buffers than the capacity — appends exactly
one buffer. -/
lemma feedAudioData_queue_cases (s : AVFEngineImpl) (d : List ℚ)
    (sr ch fc : Nat) :
    (s.feedAudioData d sr ch fc).2.maxQueueSize = s.maxQueueSize ∧
    ((s.feedAudioData d sr ch fc).2.sampleQueue = s.sampleQueue ∨
      ((s.feedAudioData d sr ch fc).2.sampleQueue.length
          = s.sampleQueue.length + 1 ∧
        s.sampleQueue.length < s.maxQueueSize)) := by
  by_cases hg : ¬s.isEnabled ∨ s.isPaused
  · unfold AVFEngineImpl.feedAudioData
    rw [if_pos hg]
    exact ⟨rfl, Or.inl rfl⟩
  · by_cases hv : d.length = 0 ∨ fc = 0 ∨ ch = 0
    · unfold AVFEngineImpl.feedAudioData
      rw [if_neg hg, if_pos hv]
      exact ⟨rfl, Or.inl rfl⟩
    · obtain ⟨-, -, pQ, pM, -, -, -, -, -, -⟩ :=
        setupAudioFormat_preserves s sr ch
      rcases hset : s.setupAudioFormat sr ch with ⟨b, s₁⟩
      rw [hset] at pQ pM
      dsimp only at pQ pM
      cases b with
      | false =>
        unfold AVFEngineImpl.feedAudioData
        rw [if_neg hg, if_neg hv, hset]
        exact ⟨pM, Or.inl pQ⟩
      | true =>
        by_cases hq : s₁.maxQueueSize ≤ s₁.sampleQueue.length
        · unfold AVFEngineImpl.feedAudioData
          rw [if_neg hg, if_neg hv, hset]
          dsimp only
          rw [if_pos hq]
          exact ⟨pM, Or.inl pQ⟩
        · unfold AVFEngineImpl.feedAudioData
          rw [if_neg hg, if_neg hv, hset]
          dsimp only
          rw [if_neg hq]
          refine ⟨pM, Or.inr ⟨?_, ?_⟩⟩
          · simp [pQ]
          · rw [pM, pQ] at hq
            omega

/-- Run characterisation: feeding the same valid unit n times into an
enabled, unpaused engine accepts one unit per free queue slot (returning
frameCount) and rejects every further call (returning 0), filling the
queue up to capacity and never past it. -/
lemma feedN_spec (d : List ℚ) (sr ch fc : Nat) (hd : d ≠ []) (hfc : fc ≠ 0)
    (hch : ch ≠ 0) (hsr : 0 < sr) :
    ∀ (n : Nat) (s : AVFEngineImpl), s.isEnabled = true → s.isPaused = false →
    (feedN s d sr ch fc n).1 =
      List.replicate (min n (s.maxQueueSize - s.sampleQueue.length)) fc ++
        List.replicate (n - (s.maxQueueSize - s.sampleQueue.length)) 0 ∧
    (feedN s d sr ch fc n).2.sampleQueue.length =
      s.sampleQueue.length + min n (s.maxQueueSize - s.sampleQueue.length) := by
  intro n
  induction n with
  | zero => intro s hE hP; simp [feedN]
  | succ n ih =>
    intro s hE hP
    by_cases hlt : s.sampleQueue.length < s.maxQueueSize
    · obtain ⟨r1, rQ, -, -, rE, rP, rM⟩ :=
        feedAudioData_accepted s d sr ch fc hE hP hd hfc hch hsr hlt
      obtain ⟨ih1, ih2⟩ := ih (s.feedAudioData d sr ch fc).2 rE rP
      have hlen : (s.feedAudioData d sr ch fc).2.sampleQueue.length
          = s.sampleQueue.length + 1 := by
        rw [rQ]; simp
      have ha : s.maxQueueSize - s.sampleQueue.length
          = (s.maxQueueSize - (s.sampleQueue.length + 1)) + 1 := by omega
      constructor
      · simp only [feedN]
        rw [r1, ih1, hlen, rM, ha, Nat.succ_min_succ, Nat.succ_sub_succ,
          List.replicate_succ, List.cons_append]
      · simp only [feedN]
        rw [ih2, hlen, rM, ha, Nat.succ_min_succ]
        omega
    · obtain ⟨r0, rQ, -, -, rE, rP, rM⟩ :=
        feedAudioData_rejected_full s d sr ch fc hE hP hd hfc hch hsr
          (by omega)
      obtain ⟨ih1, ih2⟩ := ih (s.feedAudioData d sr ch fc).2 rE rP
      have hlen : (s.feedAudioData d sr ch fc).2.sampleQueue.length
          = s.sampleQueue.length := by rw [rQ]
      have hcap0 : s.maxQueueSize - s.sampleQueue.length = 0 := by omega
      constructor
      · simp only [feedN]
        rw [r0, ih1, hlen, rM, hcap0]
        simp [List.replicate_succ]
      · simp only [feedN]
        rw [ih2, hlen, rM, hcap0]
        simp

/-- The vectorised conversion loop is extensionally the elementwise map of
the narrowing conversion. -/
lemma neonConvertEqMap (cvt : α → β) (src : List α) :
    utils.neon_convert cvt src = src.map cvt := by
  suffices h : ∀ (n : Nat) (l : List α), l.length = n →
      utils.neon_convert cvt l = l.map cvt from h src.length src rfl
  intro n
  induction n using Nat.strong_induction_on with
  | _ n ih =>
    intro l hn
    rw [utils.neon_convert.eq_def]
    split
    · next x0 x1 x2 x3 x4 x5 x6 x7 x8 x9 x10 x11 x12 x13 x14 x15 rest =>
      have hr : utils.neon_convert cvt rest = rest.map cvt := by
        apply ih rest.length ?_ rest rfl
        subst hn
        simp only [List.length_cons]
        omega
      simp [utils.vcombine_f32, utils.vcvt_f32_f64, hr]
    · rfl

/-- C10: whenever the engine is Disabled or Paused, feedAudioData returns 0
immediately — before input validation, format negotiation and any timeline
or queue access — and the state, including the log, is exactly unchanged. -/
theorem feed_noop_when_disabled_or_paused (s : AVFEngineImpl) (d : List ℚ)
    (sr ch fc : Nat) (h : s.isEnabled = false ∨ s.isPaused = true) :
    s.feedAudioData d sr ch fc = (0, s) ∧
    (s.feedAudioData d sr ch fc).2.log = s.log := by
  have hg : ¬s.isEnabled = true ∨ s.isPaused = true := by
    rcases h with h | h
    · exact Or.inl (by simp [h])
    · exact Or.inr h
  constructor
  · unfold AVFEngineImpl.feedAudioData
    rw [if_pos hg]
  · unfold AVFEngineImpl.feedAudioData
    rw [if_pos hg]

/-- Witness for C10: a feed into the freshly initialised (disabled) engine
returns 0 and leaves the state untouched. -/
theorem feed_noop_when_disabled_or_paused_witness :
    AVFEngineImpl.init.feedAudioData [0] 48000 2 100 = (0, AVFEngineImpl.init) :=
  (feed_noop_when_disabled_or_paused AVFEngineImpl.init [0] 48000 2 100
    (Or.inl (by decide))).1

/-- C6: a feed on an enabled, unpaused engine with an empty sample buffer,
zero frames or zero channels returns 0, logs the rejection, and changes
nothing else: the result state is the input state with only the log
message prepended. -/
theorem feed_invalid_input_rejected (s : AVFEngineImpl) (d : List ℚ)
    (sr ch fc : Nat) (hE : s.isEnabled = true) (hP : s.isPaused = false)
    (hv : d = [] ∨ fc = 0 ∨ ch = 0) :
    (s.feedAudioData d sr ch fc).1 = 0 ∧
    (s.feedAudioData d sr ch fc).2
      = { s with log := LogMsg.invalidAudioData :: s.log } ∧
    (s.feedAudioData d sr ch fc).2.sampleQueue = s.sampleQueue ∧
    (s.feedAudioData d sr ch fc).2.nextPresentationTime
      = s.nextPresentationTime ∧
    (s.feedAudioData d sr ch fc).2.lastBufferPresentationTime
      = s.lastBufferPresentationTime ∧
    (s.feedAudioData d sr ch fc).2.currentFormat = s.currentFormat := by
  have hg : ¬(¬s.isEnabled = true ∨ s.isPaused = true) := by simp [hE, hP]
  have hv' : d.length = 0 ∨ fc = 0 ∨ ch = 0 := by
    rcases hv with h | h
    · exact Or.inl (by simp [h])
    · exact Or.inr h
  unfold AVFEngineImpl.feedAudioData
  rw [if_neg hg, if_pos hv']
  exact ⟨rfl, rfl, rfl, rfl, rfl, rfl⟩

/-- Witness for C6: an empty buffer fed into the enabled demo engine. -/
theorem feed_invalid_input_rejected_witness :
    (demoEnabled.feedAudioData [] 48000 2 100).1 = 0 ∧
    (demoEnabled.feedAudioData [] 48000 2 100).2
      = { demoEnabled with log := LogMsg.invalidAudioData :: demoEnabled.log } ∧
    (demoEnabled.feedAudioData [] 48000 2 100).2.sampleQueue
      = demoEnabled.sampleQueue ∧
    (demoEnabled.feedAudioData [] 48000 2 100).2.nextPresentationTime
      = demoEnabled.nextPresentationTime ∧
    (demoEnabled.feedAudioData [] 48000 2 100).2.lastBufferPresentationTime
      = demoEnabled.lastBufferPresentationTime ∧
    (demoEnabled.feedAudioData [] 48000 2 100).2.currentFormat
      = demoEnabled.currentFormat :=
  feed_invalid_input_rejected demoEnabled [] 48000 2 100 (by decide) (by decide)
    (Or.inl rfl)

/-- C5: setQueueSize accepts exactly the sizes 1..10, setting the capacity
and logging; any other size (0 included) keeps the previous capacity and
logs a warning; and in both cases no other engine state changes. -/
theorem setQueueSize_spec (s : AVFEngineImpl) (n : Nat) :
    (0 < n ∧ n ≤ 10 →
      (s.setQueueSize n).maxQueueSize = n ∧
      (s.setQueueSize n).log = LogMsg.queueSizeSet :: s.log) ∧
    (¬(0 < n ∧ n ≤ 10) →
      (s.setQueueSize n).maxQueueSize = s.maxQueueSize ∧
      (s.setQueueSize n).log = LogMsg.invalidQueueSize :: s.log) ∧
    (s.setQueueSize n).isEnabled = s.isEnabled ∧
    (s.setQueueSize n).isPaused = s.isPaused ∧
    (s.setQueueSize n).currentFormat = s.currentFormat ∧
    (s.setQueueSize n).nextPresentationTime = s.nextPresentationTime ∧
    (s.setQueueSize n).lastBufferPresentationTime
      = s.lastBufferPresentationTime ∧
    (s.setQueueSize n).sampleQueue = s.sampleQueue ∧
    (s.setQueueSize n).synchronizerRate = s.synchronizerRate ∧
    (s.setQueueSize n).rendererVolume = s.rendererVolume ∧
    (s.setQueueSize n).requestingMediaData = s.requestingMediaData ∧
    (s.setQueueSize n).rendererEnqueued = s.rendererEnqueued ∧
    (s.setQueueSize n).formatBuildCount = s.formatBuildCount := by
  by_cases h : 0 < n ∧ n ≤ 10
  · unfold AVFEngineImpl.setQueueSize
    rw [if_pos h]
    simp [h]
  · unfold AVFEngineImpl.setQueueSize
    rw [if_neg h]
    simp [h]

/-- Witness for C5: size 5 is accepted, size 0 is rejected keeping the
default capacity 8. -/
theorem setQueueSize_spec_witness :
    (AVFEngineImpl.init.setQueueSize 5).maxQueueSize = 5 ∧
    (AVFEngineImpl.init.setQueueSize 0).maxQueueSize
      = AVFEngineImpl.init.maxQueueSize :=
  ⟨((setQueueSize_spec AVFEngineImpl.init 5).1 (by decide)).1,
   ((setQueueSize_spec AVFEngineImpl.init 0).2.1 (by decide)).1⟩

/-- C9: the NEON conversion loop (16-wide main loop plus scalar tail)
produces exactly the elementwise narrowing of its input: it equals the map
of the narrowing conversion, preserves the length, and converts every
index in order with no element skipped, duplicated or reordered.  The
narrowing conversion itself is abstract here: vcvt_f32_f64 and the scalar
(float) cast perform the same double-to-float32 rounding, so both paths
use the same cvt. -/
theorem neon_convert_refines_scalar (cvt : α → β) (src : List α) :
    utils.neon_convert cvt src = src.map cvt ∧
    (utils.neon_convert cvt src).length = src.length ∧
    ∀ i : Nat, (utils.neon_convert cvt src)[i]? = src[i]?.map cvt := by
  refine ⟨neonConvertEqMap cvt src, ?_, ?_⟩
  · rw [neonConvertEqMap cvt src]
    simp
  · intro i
    rw [neonConvertEqMap cvt src]
    simp

/-- C7: after a successful setupAudioFormat, a second call with the same
(sampleRate, channelCount) hits the fast path: it returns true and leaves
the whole state — in particular currentFormat and the count of format
constructions — exactly as the first call left it. -/
theorem setupAudioFormat_idempotent (s : AVFEngineImpl) (sr ch : Nat)
    (h : (s.setupAudioFormat sr ch).1 = true) :
    ((s.setupAudioFormat sr ch).2).setupAudioFormat sr ch
      = (true, (s.setupAudioFormat sr ch).2) ∧
    (((s.setupAudioFormat sr ch).2).setupAudioFormat sr ch).2.currentFormat
      = ((s.setupAudioFormat sr ch).2).currentFormat ∧
    (((s.setupAudioFormat sr ch).2).setupAudioFormat sr ch).2.formatBuildCount
      = ((s.setupAudioFormat sr ch).2).formatBuildCount := by
  by_cases hfast : sr = objcSampleRate s.currentFormat ∧
      ch = objcChannelCount s.currentFormat
  · have h1 : s.setupAudioFormat sr ch = (true, s) := by
      unfold AVFEngineImpl.setupAudioFormat
      rw [if_pos hfast]
    rw [h1]
    dsimp only
    have h2 : s.setupAudioFormat sr ch = (true, s) := h1
    rw [h2]
    exact ⟨rfl, rfl, rfl⟩
  · by_cases hpos : 0 < sr ∧ 0 < ch
    · have h1 : s.setupAudioFormat sr ch =
          (true, { s with currentFormat := some ⟨sr, ch⟩,
                          formatBuildCount := s.formatBuildCount + 1 }) := by
        unfold AVFEngineImpl.setupAudioFormat
        rw [if_neg hfast, if_pos hpos]
      rw [h1]
      dsimp only
      have h2 : ({ s with currentFormat := some (⟨sr, ch⟩ : AVAudioFormat),
                           formatBuildCount := s.formatBuildCount + 1 } :
            AVFEngineImpl).setupAudioFormat sr ch
          = (true, { s with currentFormat := some ⟨sr, ch⟩,
                            formatBuildCount := s.formatBuildCount + 1 }) := by
        unfold AVFEngineImpl.setupAudioFormat
        rw [if_pos (by simp [objcSampleRate, objcChannelCount])]
      rw [h2]
      exact ⟨rfl, rfl, rfl⟩
    · exfalso
      have h1 : (s.setupAudioFormat sr ch).1 = false := by
        unfold AVFEngineImpl.setupAudioFormat
        rw [if_neg hfast, if_neg hpos]
      rw [h1] at h
      exact Bool.noConfusion h

/-- Witness for C7: 48000 Hz stereo set up twice from the initial state. -/
theorem setupAudioFormat_idempotent_witness :
    ((AVFEngineImpl.init.setupAudioFormat 48000 2).2).setupAudioFormat 48000 2
      = (true, (AVFEngineImpl.init.setupAudioFormat 48000 2).2) :=
  (setupAudioFormat_idempotent AVFEngineImpl.init 48000 2 (by decide)).1

/-- C8: pausing an enabled, unpaused engine changes only the paused flag,
the synchronizer rate and the log — every queued unit, the timeline, the
format, the capacity and the renderer-side buffers are untouched — and
after a resume the next render step hands exactly the oldest queued unit
to the renderer, removing it from the queue (no skip, no duplicate). -/
theorem pause_preserves_queue_resume_renders_oldest (s : AVFEngineImpl)
    (hE : s.isEnabled = true) (hP : s.isPaused = false) :
    s.pause.sampleQueue = s.sampleQueue ∧
    s.pause.isPaused = true ∧
    s.pause.synchronizerRate = 0 ∧
    s.pause.isEnabled = s.isEnabled ∧
    s.pause.currentFormat = s.currentFormat ∧
    s.pause.nextPresentationTime = s.nextPresentationTime ∧
    s.pause.lastBufferPresentationTime = s.lastBufferPresentationTime ∧
    s.pause.maxQueueSize = s.maxQueueSize ∧
    s.pause.rendererVolume = s.rendererVolume ∧
    s.pause.requestingMediaData = s.requestingMediaData ∧
    s.pause.rendererEnqueued = s.rendererEnqueued ∧
    s.pause.resume.sampleQueue = s.sampleQueue ∧
    s.pause.resume.isPaused = false ∧
    s.pause.resume.isEnabled = true ∧
    s.pause.resume.synchronizerRate = 1 ∧
    (∀ u rest, s.sampleQueue = u :: rest →
      s.pause.resume.renderFromQueue.sampleQueue = rest ∧
      s.pause.resume.renderFromQueue.rendererEnqueued
        = s.rendererEnqueued ++ [u]) := by
  have hp : s.pause = { s with isPaused := true, synchronizerRate := 0,
                                log := LogMsg.pausedPlayback :: s.log } := by
    unfold AVFEngineImpl.pause
    rw [if_neg (by simp [hE])]
  have hr : s.pause.resume = { s with isPaused := false,
                                       synchronizerRate := 1,
                                       log := LogMsg.resumedPlayback ::
                                         LogMsg.pausedPlayback :: s.log } := by
    rw [hp]
    unfold AVFEngineImpl.resume
    rw [if_neg (by simp [hE])]
  refine ⟨by rw [hp], by rw [hp], by rw [hp], by rw [hp, hE], by rw [hp],
    by rw [hp], by rw [hp], by rw [hp], by rw [hp], by rw [hp], by rw [hp],
    by rw [hr], by rw [hr], by rw [hr, hE], by rw [hr], ?_⟩
  intro u rest hq
  rw [hr]
  unfold AVFEngineImpl.renderFromQueue
  rw [if_neg (by simp [hE])]
  simp [hq]

/-- Witness for C8: pausing the demo engine holding one queued unit. -/
theorem pause_preserves_queue_witness :
    demoFed.pause.sampleQueue = demoFed.sampleQueue ∧
    demoFed.pause.resume.isPaused = false :=
  ⟨(pause_preserves_queue_resume_renders_oldest demoFed (by decide)
      (by decide)).1,
   (pause_preserves_queue_resume_renders_oldest demoFed (by decide)
      (by decide)).2.2.2.2.2.2.2.2.2.2.2.2.1⟩

/-- Counterexample to C1 as stated: on an enabled engine holding one
accepted unit, flush() leaves pendingBufferCount at 1, not 0 — flush
resets the timestamps and flushes the renderer but never clears the
sample queue. -/
theorem flush_keeps_pending_counterexample :
    demoFed.isEnabled = true ∧
    demoFed.pendingBufferCount = 1 ∧
    demoFed.flush.pendingBufferCount = 1 := by decide

/-- C1 (amended): after flush() on an Enabled or Paused engine the
timeline is reset — the next accepted unit is built with presentationTime
0 — and the engine flags are unchanged; but the queued units are NOT
dropped: pendingBufferCount is exactly what it was before the flush. -/
theorem flush_resets_timeline_keeps_queue (s : AVFEngineImpl)
    (hE : s.isEnabled = true) :
    s.flush.nextPresentationTime = 0 ∧
    s.flush.lastBufferPresentationTime = none ∧
    s.flush.sampleQueue = s.sampleQueue ∧
    s.flush.pendingBufferCount = s.pendingBufferCount ∧
    s.flush.isEnabled = s.isEnabled ∧
    s.flush.isPaused = s.isPaused ∧
    s.flush.maxQueueSize = s.maxQueueSize ∧
    s.flush.currentFormat = s.currentFormat ∧
    s.flush.log = s.log ∧
    (∀ (d : List ℚ) (sr ch fc : Nat),
      (s.flush.feedAudioData d sr ch fc).1 ≠ 0 →
      ∃ u : CMSampleBuffer,
        (s.flush.feedAudioData d sr ch fc).2.sampleQueue
          = s.flush.sampleQueue ++ [u] ∧
        u.presentationTime = 0) := by
  have hf : s.flush = { s with nextPresentationTime := 0,
                               lastBufferPresentationTime := none,
                               rendererEnqueued := [] } := by
    unfold AVFEngineImpl.flush
    rw [if_neg (by simp [hE])]
  refine ⟨by rw [hf], by rw [hf], by rw [hf],
    by unfold AVFEngineImpl.pendingBufferCount; rw [hf], by rw [hf],
    by rw [hf], by rw [hf], by rw [hf], by rw [hf], ?_⟩
  intro d sr ch fc h
  obtain ⟨-, -, -, -, hQ, -, -, -, -, -⟩ :=
    feedAudioData_succ_inv s.flush d sr ch fc h
  refine ⟨_, hQ, ?_⟩
  rw [hf]

/-- Witness for the amended C1: flushing the demo engine with one queued
unit resets the timeline and keeps the unit queued. -/
theorem flush_resets_timeline_keeps_queue_witness :
    demoFed.flush.nextPresentationTime = 0 ∧
    demoFed.flush.pendingBufferCount = demoFed.pendingBufferCount :=
  ⟨(flush_resets_timeline_keeps_queue demoFed (by decide)).1,
   (flush_resets_timeline_keeps_queue demoFed (by decide)).2.2.2.1⟩

/-- C2: two consecutive accepted feeds chain exactly on the timeline: the
first built unit takes the current nextPresentationTime, the second takes
the first unit's presentationTime plus its duration frameCount/sampleRate
exactly (hence timestamps are non-decreasing with no gaps); each feed
performs the read of nextPresentationTime, its advance and the update of
lastBufferPresentationTime as one transition; and the timeline is zeroed
by enable() from Disabled and by flush() while enabled, so the first unit
accepted after either reset is built with presentationTime 0. -/
theorem feed_timeline_monotone_chain (s : AVFEngineImpl) (d₁ d₂ : List ℚ)
    (sr₁ ch₁ fc₁ sr₂ ch₂ fc₂ : Nat)
    (h₁ : (s.feedAudioData d₁ sr₁ ch₁ fc₁).1 ≠ 0)
    (h₂ : ((s.feedAudioData d₁ sr₁ ch₁ fc₁).2.feedAudioData d₂ sr₂ ch₂ fc₂).1
      ≠ 0) :
    (∃ u₁ u₂ : CMSampleBuffer,
      (s.feedAudioData d₁ sr₁ ch₁ fc₁).2.sampleQueue
        = s.sampleQueue ++ [u₁] ∧
      ((s.feedAudioData d₁ sr₁ ch₁ fc₁).2.feedAudioData d₂ sr₂ ch₂ fc₂).2.sampleQueue
        = s.sampleQueue ++ [u₁, u₂] ∧
      u₁.presentationTime = s.nextPresentationTime ∧
      u₁.duration = (fc₁ : ℚ) / (sr₁ : ℚ) ∧
      u₂.presentationTime = u₁.presentationTime + u₁.duration ∧
      u₁.presentationTime ≤ u₂.presentationTime ∧
      (s.feedAudioData d₁ sr₁ ch₁ fc₁).2.nextPresentationTime
        = u₁.presentationTime + u₁.duration ∧
      (s.feedAudioData d₁ sr₁ ch₁ fc₁).2.lastBufferPresentationTime
        = some u₁.presentationTime ∧
      ((s.feedAudioData d₁ sr₁ ch₁ fc₁).2.feedAudioData d₂ sr₂ ch₂ fc₂).2.lastBufferPresentationTime
        = some u₂.presentationTime) ∧
    (∀ t : AVFEngineImpl, t.isEnabled = false →
      ((t.enable).2).nextPresentationTime = 0) ∧
    (∀ t : AVFEngineImpl, t.isEnabled = true →
      t.flush.nextPresentationTime = 0) := by
  obtain ⟨-, -, -, -, hQ₁, hN₁, hL₁, -, -, -⟩ :=
    feedAudioData_succ_inv s d₁ sr₁ ch₁ fc₁ h₁
  obtain ⟨-, -, -, -, hQ₂, -, hL₂, -, -, -⟩ :=
    feedAudioData_succ_inv (s.feedAudioData d₁ sr₁ ch₁ fc₁).2 d₂ sr₂ ch₂ fc₂
      h₂
  refine ⟨⟨⟨d₁, fc₁, (fc₁ : ℚ) / (sr₁ : ℚ), s.nextPresentationTime⟩,
    ⟨d₂, fc₂, (fc₂ : ℚ) / (sr₂ : ℚ),
      (s.feedAudioData d₁ sr₁ ch₁ fc₁).2.nextPresentationTime⟩,
    hQ₁, ?_, rfl, rfl, ?_, ?_, ?_, hL₁, hL₂⟩, ?_, ?_⟩
  · rw [hQ₂, hQ₁, List.append_assoc]
    rfl
  · dsimp only
    rw [hN₁]
  · dsimp only
    rw [hN₁]
    have : (0 : ℚ) ≤ (fc₁ : ℚ) / (sr₁ : ℚ) :=
      div_nonneg (Nat.cast_nonneg fc₁) (Nat.cast_nonneg sr₁)
    linarith
  · dsimp only
    rw [hN₁]
  · intro t ht
    unfold AVFEngineImpl.enable
    rw [if_neg (by simp [ht])]
  · intro t ht
    unfold AVFEngineImpl.flush
    rw [if_neg (by simp [ht])]

/-- Witness for C2: feeding 1000-frame units at 48000 Hz twice into the
freshly enabled engine (first presentationTime 0, second 1000/48000). -/
theorem feed_timeline_monotone_chain_witness :
    ∃ u₁ u₂ : CMSampleBuffer,
      (demoEnabled.feedAudioData [0] 48000 2 1000).2.sampleQueue
        = demoEnabled.sampleQueue ++ [u₁] ∧
      ((demoEnabled.feedAudioData [0] 48000 2 1000).2.feedAudioData [0] 48000 2 1000).2.sampleQueue
        = demoEnabled.sampleQueue ++ [u₁, u₂] ∧
      u₁.presentationTime = demoEnabled.nextPresentationTime ∧
      u₁.duration = (1000 : ℚ) / (48000 : ℚ) ∧
      u₂.presentationTime = u₁.presentationTime + u₁.duration ∧
      u₁.presentationTime ≤ u₂.presentationTime ∧
      (demoEnabled.feedAudioData [0] 48000 2 1000).2.nextPresentationTime
        = u₁.presentationTime + u₁.duration ∧
      (demoEnabled.feedAudioData [0] 48000 2 1000).2.lastBufferPresentationTime
        = some u₁.presentationTime ∧
      ((demoEnabled.feedAudioData [0] 48000 2 1000).2.feedAudioData [0] 48000 2 1000).2.lastBufferPresentationTime
        = some u₂.presentationTime :=
  (feed_timeline_monotone_chain demoEnabled [0] [0] 48000 2 1000 48000 2 1000
    (by decide) (by decide)).1

/-- C3: with capacity 3 and no consumption, five 100-frame feeds at
48000 Hz return [100, 100, 100, 0, 0] and leave pendingBufferCount at 3;
in general, feeding n ≥ capacity valid units into an enabled, unpaused
engine with an empty queue accepts exactly capacity of them (each
returning its full frameCount) and rejects the remaining n - capacity
(each returning 0); and a feed arriving at a full queue returns 0 without
mutating the queue. -/
theorem backpressure_accepts_exactly_capacity :
    ((feedN demoCap3 [0] 48000 2 100 5).1 = [100, 100, 100, 0, 0] ∧
      (feedN demoCap3 [0] 48000 2 100 5).2.pendingBufferCount = 3) ∧
    (∀ (n : Nat) (s : AVFEngineImpl) (d : List ℚ) (sr ch fc : Nat),
      s.isEnabled = true → s.isPaused = false → s.sampleQueue = [] →
      d ≠ [] → fc ≠ 0 → ch ≠ 0 → 0 < sr → s.maxQueueSize ≤ n →
      (feedN s d sr ch fc n).1
        = List.replicate s.maxQueueSize fc ++
            List.replicate (n - s.maxQueueSize) 0 ∧
      (feedN s d sr ch fc n).2.pendingBufferCount = s.maxQueueSize) ∧
    (∀ (s : AVFEngineImpl) (d : List ℚ) (sr ch fc : Nat),
      s.isEnabled = true → s.isPaused = false →
      d ≠ [] → fc ≠ 0 → ch ≠ 0 → 0 < sr →
      s.maxQueueSize ≤ s.sampleQueue.length →
      (s.feedAudioData d sr ch fc).1 = 0 ∧
      (s.feedAudioData d sr ch fc).2.sampleQueue = s.sampleQueue) := by
  refine ⟨by decide, ?_, ?_⟩
  · intro n s d sr ch fc hE hP hq0 hd hfc hch hsr hcap
    obtain ⟨h1, h2⟩ := feedN_spec d sr ch fc hd hfc hch hsr n s hE hP
    rw [hq0] at h1 h2
    simp only [List.length_nil, Nat.sub_zero, Nat.zero_add] at h1 h2
    rw [min_eq_right hcap] at h1 h2
    exact ⟨h1, h2⟩
  · intro s d sr ch fc hE hP hd hfc hch hsr hfull
    obtain ⟨r0, rQ, -, -, -, -, -⟩ :=
      feedAudioData_rejected_full s d sr ch fc hE hP hd hfc hch hsr hfull
    exact ⟨r0, rQ⟩

/-- Witness for C3: the general bound applied to the concrete capacity-3
engine and five feeds. -/
theorem backpressure_accepts_exactly_capacity_witness :
    (feedN demoCap3 [0] 48000 2 100 5).1
      = List.replicate demoCap3.maxQueueSize 100 ++
          List.replicate (5 - demoCap3.maxQueueSize) 0 ∧
    (feedN demoCap3 [0] 48000 2 100 5).2.pendingBufferCount
      = demoCap3.maxQueueSize :=
  backpressure_accepts_exactly_capacity.2.1 5 demoCap3 [0] 48000 2 100
    (by decide) (by decide) (by decide) (by decide) (by decide) (by decide)
    (by decide) (by decide)

/-- Counterexample to C4 as stated: setQueueSize can shrink the capacity
below the current queue depth.  After enable, four accepted feeds (default
capacity 8) and setQueueSize(3), the queue holds 4 units while the
capacity is 3, so size() ≤ capacity fails at an observable point reached
by a legal operation sequence. -/
theorem queue_can_exceed_capacity_counterexample :
    (runOps AVFEngineImpl.init shrinkOps).sampleQueue.length = 4 ∧
    (runOps AVFEngineImpl.init shrinkOps).maxQueueSize = 3 := by decide

/-- C4 (amended): an enqueue attempt never succeeds when size() has
reached the capacity — a nonzero feed return implies the queue had
strictly fewer units than maxQueueSize — and size() ≤ capacity is
preserved by every operation, except that a setQueueSize call whose new
(valid) capacity is below the current size is the one way to break it;
under the proviso that no such shrinking call occurs, 0 ≤ size() ≤
capacity holds at every observable point. -/
theorem queue_bound_invariant :
    (∀ (s : AVFEngineImpl) (d : List ℚ) (sr ch fc : Nat),
      (s.feedAudioData d sr ch fc).1 ≠ 0 →
      s.sampleQueue.length < s.maxQueueSize) ∧
    (∀ (op : Op) (s : AVFEngineImpl),
      s.sampleQueue.length ≤ s.maxQueueSize →
      (∀ n, op = Op.setQueueSize n → 0 < n → n ≤ 10 →
        s.sampleQueue.length ≤ n) →
      (op.step s).sampleQueue.length ≤ (op.step s).maxQueueSize) := by
  constructor
  · intro s d sr ch fc h
    exact (feedAudioData_succ_inv s d sr ch fc h).2.2.1
  · intro op s hinv hop
    cases op with
    | feed d sr ch fc =>
      obtain ⟨hM, hc⟩ := feedAudioData_queue_cases s d sr ch fc
      dsimp only [Op.step]
      rw [hM]
      rcases hc with hc | ⟨hc, hlt⟩
      · rw [hc]
        exact hinv
      · omega
    | render =>
      dsimp only [Op.step]
      unfold AVFEngineImpl.renderFromQueue
      split
      · exact hinv
      · split
        · exact hinv
        · next buf rest heq =>
          rw [heq] at hinv
          simp only [List.length_cons] at hinv
          simp only [List.length_cons]
          omega
    | setQueueSize n =>
      dsimp only [Op.step]
      unfold AVFEngineImpl.setQueueSize
      split
      · next h => exact hop n rfl h.1 h.2
      · exact hinv
    | enable =>
      dsimp only [Op.step]
      unfold AVFEngineImpl.enable
      split
      · exact hinv
      · simp
    | disable =>
      dsimp only [Op.step]
      unfold AVFEngineImpl.disable
      split
      · exact hinv
      · simp
    | pause =>
      dsimp only [Op.step]
      unfold AVFEngineImpl.pause
      split
      · exact hinv
      · exact hinv
    | resume =>
      dsimp only [Op.step]
      unfold AVFEngineImpl.resume
      split
      · exact hinv
      · exact hinv
    | flush =>
      dsimp only [Op.step]
      unfold AVFEngineImpl.flush
      split
      · exact hinv
      · exact hinv

/-- Witness for the amended C4: the guard applied to a successful concrete
feed, and preservation applied to a concrete flush step. -/
theorem queue_bound_invariant_witness :
    demoEnabled.sampleQueue.length < demoEnabled.maxQueueSize ∧
    ((Op.flush).step demoEnabled).sampleQueue.length
      ≤ ((Op.flush).step demoEnabled).maxQueueSize :=
  ⟨queue_bound_invariant.1 demoEnabled [0] 48000 2 100 (by decide),
   queue_bound_invariant.2 Op.flush demoEnabled (by decide)
     (fun n h => Op.noConfusion h)⟩
